import Mathlib

/-!
Verification of the InvestmentClimateIndex API gateway
(`src/server/index.js`) against its specification.

The server is embedded shallowly: the mutable module-level `CACHE` and
the durable key/alert store become explicit state values threaded through
pure Lean functions; every network call (`fetch`) becomes an explicit
outcome parameter (`Except` for calls that can reject, concrete data for
calls that resolved); JS truthiness coercions (`x || null`, `!token`) are
modelled by explicit helpers.  `server/db.js` and `server/utils.js` are
not part of the provided source tree, so the Key Store operations and the
hash/signal helpers they export are modelled from the specification, as
marked on each such definition.
-/

namespace ICI

/-- JS `v || null` on an optional number: `undefined`/`null` and the falsy
number `0` collapse to `null`. -/
def orNullInt (v : Option Int) : Option Int :=
  if v = some 0 then none else v

/-- JS `v || null` on an optional string: `undefined`/`null` and the falsy
empty string collapse to `null`. -/
def orNullStr (v : Option String) : Option String :=
  if v = some "" then none else v

/-- JS truthiness of an optional string value: present and non-empty. -/
def strTruthy (v : Option String) : Bool :=
  match v with
  | some s => !(s == "")
  | none => false

/-- One provider quote as produced by the three market fetchers:
`{price, marketCap}` plus the per-provider flag fields. -/
structure Market where
  price : Option Int
  marketCap : Option Int
  marketCapEstimate : Bool
  marketCapProxy : Option String
  deriving Repr, DecidableEq

/-- The combined `{btc, gold, sp500}` object written by `refreshMarkets`. -/
structure Markets where
  btc : Market
  gold : Market
  sp500 : Market
  deriving Repr, DecidableEq

/-- The base composite index document fetched from `INDEX_JSON_URL`.
Fields are the ones the server reads (`score`, `updatedAt`, `history`,
`dcaHistory`, `drivers`, `dca`) plus the `markets` slot that
`refreshMarkets` overwrites in place; fields absent upstream are `none`. -/
structure Doc where
  score : Option Int
  updatedAt : Option String
  history : List Int
  dcaHistory : List Int
  drivers : List String
  dca : Option String
  markets : Option Markets
  deriving Repr, DecidableEq

/-- The module-level `CACHE` object: `{data, dataUpdatedAt, marketsUpdatedAt}`,
all initialised to `null`. -/
structure Cache where
  data : Option Doc
  dataUpdatedAt : Option String
  marketsUpdatedAt : Option String
  deriving Repr, DecidableEq

/-- The initial `CACHE` value. -/
def initialCache : Cache := ⟨none, none, none⟩

/-- The parse step of `fetchSpx`: trim, split into lines, take field 6 of
the second line, keep it when it is a finite number, else `null` (a short
or malformed CSV also yields `null`). -/
def parseSpxClose (csv : String) : Option Int :=
  let lines := csv.trim.splitOn "\n"
  if h : 2 ≤ lines.length then
    let parts := (lines.get ⟨1, by omega⟩).splitOn ","
    match parts.get? 6 with
    | none => none
    | some s => s.toInt?
  else none

/-- `fetchSpx`: the stooq request either rejects (network failure, modelled
by `Except.error`) or yields a CSV body that is parsed to an optional
close price. -/
def fetchSpx (res : Except Unit String) : Except Unit (Option Int) :=
  res.map parseSpxClose

/-- `fetchSp500Market`: wraps `fetchSpx` in `try/catch`, so it never
fails; a rejected or unparsable fetch becomes `price: null`. -/
def fetchSp500Market (res : Except Unit String) : Market :=
  let spxPrice : Option Int :=
    match fetchSpx res with
    | .error _ => none
    | .ok p => p
  { price := spxPrice, marketCap := none, marketCapEstimate := false,
    marketCapProxy := some "SPY" }

/-- The `data.bitcoin` object of the coingecko response; each field may be
absent. -/
structure BtcCoin where
  usd : Option Int
  usd_market_cap : Option Int
  deriving Repr, DecidableEq

/-- `fetchBtcMarket`: `fetchJson` rejects on network error or non-success
status (`Except.error`); on success `data.bitcoin || {}` is read and each
field is normalised with `|| null`. -/
def fetchBtcMarket (res : Except Unit (Option BtcCoin)) : Except Unit Market :=
  match res with
  | .error e => .error e
  | .ok coin =>
    let btc := coin.getD ⟨none, none⟩
    .ok { price := orNullInt btc.usd, marketCap := orNullInt btc.usd_market_cap,
          marketCapEstimate := false, marketCapProxy := none }

/-- `fetchGoldMarket`: `fetchJson` rejects on network error or non-success
status; on success `data.price || null` is taken and `marketCapEstimate`
is set. -/
def fetchGoldMarket (res : Except Unit (Option Int)) : Except Unit Market :=
  match res with
  | .error e => .error e
  | .ok p =>
    .ok { price := orNullInt p, marketCap := none, marketCapEstimate := true,
          marketCapProxy := none }

/-- `refreshBaseData`: fetch the composite document; on success store the
payload and stamp `dataUpdatedAt` with the current time; on any failure
(network error, non-success status, malformed payload — all modelled by
`none`) keep the last cache untouched. -/
def refreshBaseData (c : Cache) (outcome : Option Doc) (now : String) : Cache :=
  match outcome with
  | none => c
  | some payload => { c with data := some payload, dataUpdatedAt := some now }

/-- `refreshMarkets`: return immediately when `CACHE.data` is null;
otherwise join the three provider fetches (`Promise.all` fail-fast: a
rejection of the btc or gold fetch aborts the tick; the sp500 fetch never
rejects), then overwrite `CACHE.data.markets` and stamp
`marketsUpdatedAt`. -/
def refreshMarkets (c : Cache) (btcRes : Except Unit (Option BtcCoin))
    (goldRes : Except Unit (Option Int)) (spxRes : Except Unit String)
    (now : String) : Cache :=
  match c.data with
  | none => c
  | some doc =>
    match fetchBtcMarket btcRes, fetchGoldMarket goldRes with
    | .ok btc, .ok gold =>
      let sp500 := fetchSp500Market spxRes
      { c with data := some { doc with markets := some ⟨btc, gold, sp500⟩ },
               marketsUpdatedAt := some now }
    | .error _, _ => c
    | _, .error _ => c

/-- A sequence of base-refresh ticks applied to the cache, each tick given
by its fetch outcome and its timestamp. -/
def runBaseTicks (c : Cache) (ticks : List (Option Doc × String)) : Cache :=
  ticks.foldl (fun s t => refreshBaseData s t.1 t.2) c

/-- A row of the `api_keys` table as inserted by the webhook handler. -/
structure KeyRecord where
  id : Nat
  key_hash : String
  plan : String
  status : String
  email : Option String
  stripe_customer_id : Option String
  stripe_subscription_id : Option String
  deriving Repr, DecidableEq

/-- An alert-subscription row as inserted by `addAlert`. -/
structure Alert where
  api_key_id : Nat
  email : Option String
  telegram_chat_id : Option String
  deriving Repr, DecidableEq

/-- The durable store behind `db.js`: key records and alert rows. -/
structure DB where
  keys : List KeyRecord
  alerts : List Alert
  deriving Repr, DecidableEq

/-- Modelled from the spec: `getKeyByHash` (`server/db.js` is not in the
source tree) is the Key Store point lookup `lookupByHash(hash) ->
Record | None`. -/
def getKeyByHash (keys : List KeyRecord) (h : String) : Option KeyRecord :=
  keys.find? (fun r => r.key_hash == h)

/-- Modelled from the spec: `insertKey` (`server/db.js` is not in the
source tree) appends one new record to the Key Store. -/
def insertKey (db : DB) (r : KeyRecord) : DB :=
  { db with keys := db.keys ++ [r] }

/-- Modelled from the spec: `updateKeySubscription` (`server/db.js` is not
in the source tree) sets the status of the record(s) matching the
customer and subscription id combination, and is a no-op when nothing
matches. -/
def updateKeySubscription (keys : List KeyRecord) (customer subscr : Option String)
    (newStatus : String) : List KeyRecord :=
  keys.map (fun r =>
    if r.stripe_customer_id = customer ∧ r.stripe_subscription_id = subscr then
      { r with status := newStatus }
    else r)

/-- Modelled from the spec: `addAlert` (`server/db.js` is not in the
source tree) appends one alert row. -/
def addAlert (db : DB) (a : Alert) : DB :=
  { db with alerts := db.alerts ++ [a] }

/-- Outcome of the `requireKey` middleware. -/
inductive AuthResult where
  | missing401
  | invalid403
  | proceed (record : KeyRecord)
  deriving Repr, DecidableEq

/-- JS `auth.startsWith('Bearer ')`, computed over the character list so
that it evaluates inside the kernel. -/
def startsWithBearer (auth : String) : Bool :=
  "Bearer ".data.isPrefixOf auth.data

/-- JS `auth.slice(7)`, computed over the character list. -/
def sliceSeven (auth : String) : String :=
  String.mk (auth.data.drop 7)

/-- The token extraction of `requireKey`: `auth = headers.authorization
|| ''`; `token = auth.startsWith('Bearer ') ? auth.slice(7) : null`;
`!token` then also treats the empty slice as missing. -/
def tokenOf (authHeader : Option String) : Option String :=
  let auth := authHeader.getD ""
  if startsWithBearer auth then
    let t := sliceSeven auth
    if t = "" then none else some t
  else none

/-- `requireKey`: missing token → 401; hash not found or record not
`active` → 403; otherwise proceed with the record attached.  The hash
function comes from `server/utils.js` (not in the source tree); the spec
says only that it is a deterministic one-way hash, so it is a
parameter. -/
def requireKey (hk : String → String) (keys : List KeyRecord)
    (authHeader : Option String) : AuthResult :=
  match tokenOf authHeader with
  | none => .missing401
  | some token =>
    match getKeyByHash keys (hk token) with
    | none => .invalid403
    | some record =>
      if record.status = "active" then .proceed record else .invalid403

/-- Modelled from the spec: `signalFromScore` (`server/utils.js` is not in
the source tree) deterministically buckets the numeric score into a small
fixed set of regime bands. -/
def signalFromScore (score : Int) : String :=
  if score < 25 then "fear"
  else if score < 50 then "caution"
  else if score < 75 then "neutral"
  else "greed"

/-- A JSON (or text) response body, restricted to the shapes the embedded
handlers produce. -/
inductive Body where
  | jsonErr (msg : String)
  | textMsg (msg : String)
  | okTrue
  | receivedTrue
  | publicIndex (doc : Doc) (signal : String)
      (dataUpdatedAt marketsUpdatedAt : Option String)
  deriving Repr, DecidableEq

/-- An HTTP response: status code and body. -/
structure Response where
  status : Nat
  body : Body
  deriving Repr, DecidableEq

/-- An authenticated route: `requireKey` runs first; on 401/403 the
response is sent and the downstream handler never runs; on success the
handler receives the resolved record and the store. -/
def runAuthed (hk : String → String) (db : DB) (authHeader : Option String)
    (handler : KeyRecord → DB → Response × DB) : Response × DB :=
  match requireKey hk db.keys authHeader with
  | .missing401 => (⟨401, .jsonErr "Missing API key"⟩, db)
  | .invalid403 => (⟨403, .jsonErr "Invalid API key"⟩, db)
  | .proceed record => handler record db

/-- `GET /public/index`: 503 while the cache holds no document, otherwise
the document spread together with the derived signal and both freshness
timestamps. -/
def handlePublicIndex (c : Cache) : Response :=
  match c.data with
  | none => ⟨503, .jsonErr "Index not ready"⟩
  | some doc =>
    ⟨200, .publicIndex doc (signalFromScore (doc.score.getD 0))
      c.dataUpdatedAt c.marketsUpdatedAt⟩

/-- The body handler of `POST /v1/alerts/subscribe` (after `requireKey`):
400 when both `email` and `telegramChatId` are JS-falsy, else insert the
alert row (`telegramChatId || null`) and answer `{ok: true}`. -/
def handleAlertsSubscribe (record : KeyRecord) (email telegramChatId : Option String)
    (db : DB) : Response × DB :=
  if !(strTruthy email) && !(strTruthy telegramChatId) then
    (⟨400, .jsonErr "Provide email or telegramChatId"⟩, db)
  else
    (⟨200, .okTrue⟩,
     addAlert db ⟨record.id, email, orNullStr telegramChatId⟩)

/-- The full `POST /v1/alerts/subscribe` route: auth gate then body
handler. -/
def postAlertsSubscribe (hk : String → String) (db : DB)
    (authHeader : Option String) (email telegramChatId : Option String) :
    Response × DB :=
  runAuthed hk db authHeader
    (fun record store => handleAlertsSubscribe record email telegramChatId store)

/-- A Stripe event after `constructEvent`: its `type` string and the
fields of `event.data.object` that the handler reads. -/
structure StripeEvent where
  type : String
  customer_email : Option String
  customer : Option String
  subscription : Option String
  id : Option String
  deriving Repr, DecidableEq

/-- An outbound mailer call: `{to, subject, html}` (the JSON field `to`
is a reserved word here, so it is named `toAddr`). -/
structure Mail where
  toAddr : String
  subject : String
  html : String
  deriving Repr, DecidableEq

/-- The notification body carrying the plaintext key. -/
def keyMailHtml (key : String) : String :=
  "<p>Your API key: <strong>" ++ key ++ "</strong></p><p>Keep it safe.</p>"

/-- Observable outcome of one `POST /v1/webhook` request: the response
(`none` when the handler threw after its side effects, so no JSON reply
was sent), the store afterwards, and the outbound mailer calls made. -/
structure WebhookResult where
  response : Option Response
  db : DB
  mails : List Mail
  deriving Repr, DecidableEq

/-- `POST /v1/webhook`.  `verified` is the outcome of
`stripe.webhooks.constructEvent` over the raw body (`Except.error` =
signature verification threw).  `secret` is the value of `generateKey()`
(`server/utils.js` is not in the source tree; the spec says it mints a
fresh high-entropy secret, so it is a parameter), `nextId` the row id the
store assigns.  On `checkout.session.completed` a record is inserted and,
when a customer email and `MAILER_URL` are truthy, the mailer fetch is
awaited: `mailOk = false` models its rejection, which propagates out of
the handler after the insert.  On `customer.subscription.deleted` the
matching records are set inactive.  Every verified event is acknowledged
with `{received: true}`. -/
def handleWebhook (hk : String → String) (db : DB)
    (verified : Except String StripeEvent) (secret : String) (nextId : Nat)
    (mailerUrl : Option String) (mailOk : Bool) : WebhookResult :=
  match verified with
  | .error msg =>
    { response := some ⟨400, .textMsg ("Webhook Error: " ++ msg)⟩,
      db := db, mails := [] }
  | .ok event =>
    let step1 : DB × List Mail × Bool :=
      if event.type = "checkout.session.completed" then
        let record : KeyRecord :=
          { id := nextId, key_hash := hk secret, plan := "pro",
            status := "active", email := orNullStr event.customer_email,
            stripe_customer_id := orNullStr event.customer,
            stripe_subscription_id := orNullStr event.subscription }
        let db1 := insertKey db record
        if strTruthy event.customer_email && strTruthy mailerUrl then
          (db1, [⟨(event.customer_email).getD "", "Your ICI.ndex API key",
                 keyMailHtml secret⟩], !mailOk)
        else (db1, [], false)
      else (db, [], false)
    if step1.2.2 then
      { response := none, db := step1.1, mails := step1.2.1 }
    else
      let db2 :=
        if event.type = "customer.subscription.deleted" then
          { step1.1 with
            keys := updateKeySubscription step1.1.keys event.customer event.id
              "inactive" }
        else step1.1
      { response := some ⟨200, .receivedTrue⟩, db := db2, mails := step1.2.1 }

/-! ### Concrete sample values used by witnesses and counterexamples -/

/-- A concrete stand-in for the deterministic one-way hash of
`server/utils.js`. -/
def sampleHash (s : String) : String := "h:" ++ s

/-- A concrete base document (as fetched upstream, without a `markets`
field). -/
def sampleDoc : Doc :=
  ⟨some 60, some "2026-01-01", [1, 2], [3], ["rates"], some "hold", none⟩

/-- A cache that has completed one base refresh. -/
def readyCache : Cache := ⟨some sampleDoc, some "t0", none⟩

/-- An active key record whose hash matches token `tok1` under
`sampleHash`. -/
def activeRec : KeyRecord :=
  ⟨1, "h:tok1", "pro", "active", some "a@b.com", some "cus_1", some "sub_1"⟩

/-- An inactive key record whose hash matches token `tok2` under
`sampleHash`. -/
def inactiveRec : KeyRecord :=
  ⟨2, "h:tok2", "pro", "inactive", none, some "cus_2", some "sub_2"⟩

/-- A store holding one active and one inactive key. -/
def sampleDB : DB := ⟨[activeRec, inactiveRec], []⟩

/-- A downstream handler used to observe whether the auth gate lets a
request through. -/
def okHandler : KeyRecord → DB → Response × DB :=
  fun _ store => (⟨200, .okTrue⟩, store)

/-- The quote the btc fetcher produces from `{usd: 50000, usd_market_cap:
900}`. -/
def btcQuote : Market := ⟨some 50000, some 900, false, none⟩

/-- The quote the gold fetcher produces from `{price: 2000}`. -/
def goldQuote : Market := ⟨some 2000, none, true, none⟩

/-- The quote `fetchSp500Market` produces when its inner fetch rejects. -/
def spxFailQuote : Market := ⟨none, none, false, some "SPY"⟩

/-- The combined markets object of one concrete merge tick. -/
def mergedSample : Markets := ⟨btcQuote, goldQuote, spxFailQuote⟩

/-- `sampleDoc` after one concrete merge tick. -/
def mergedDoc : Doc := { sampleDoc with markets := some mergedSample }

/-! ### Theorems -/

/-- Claim C1: once the cache holds a document it never again holds none —
a failed base refresh leaves `CACHE.data` and `dataUpdatedAt` exactly as
they were, a successful one stores the (non-null) fetched document, and
over every sequence of base-refresh outcomes readiness is preserved. -/
theorem base_refresh_preserves_ready :
    (∀ c now, refreshBaseData c none now = c) ∧
    (∀ c payload now, (refreshBaseData c (some payload) now).data = some payload) ∧
    (∀ c ticks, (Cache.data c).isSome = true →
      ((runBaseTicks c ticks).data).isSome = true) := by
  refine ⟨fun c now => rfl, fun c payload now => rfl, ?_⟩
  intro c ticks h
  induction ticks generalizing c with
  | nil => exact h
  | cons t ts ih =>
    have h1 : ((refreshBaseData c t.1 t.2).data).isSome = true := by
      cases ht : t.1 with
      | none => exact h
      | some p => rfl
    exact ih _ h1

/-- Witness for `base_refresh_preserves_ready` at a ready cache and a
concrete failure-then-success tick sequence. -/
theorem base_refresh_preserves_ready_witness :
    ((Cache.data readyCache).isSome = true) ∧
    ((runBaseTicks readyCache [(none, "t1"), (some sampleDoc, "t2")]).data).isSome
      = true :=
  ⟨rfl, base_refresh_preserves_ready.2.2 readyCache
    [(none, "t1"), (some sampleDoc, "t2")] rfl⟩

/-- Claim C3: with a base document present, a successful market refresh
changes exactly the document's `markets` slot and `marketsUpdatedAt`; the
other document fields and `dataUpdatedAt` are untouched. -/
theorem market_merge_frame (c : Cache) (doc : Doc)
    (b : Except Unit (Option BtcCoin)) (g : Except Unit (Option Int))
    (s : Except Unit String) (now : String) (btc gold : Market)
    (hdoc : c.data = some doc)
    (hb : fetchBtcMarket b = .ok btc) (hg : fetchGoldMarket g = .ok gold) :
    refreshMarkets c b g s now =
      { c with
        data := some { doc with markets := some ⟨btc, gold, fetchSp500Market s⟩ },
        marketsUpdatedAt := some now } := by
  simp [refreshMarkets, hdoc, hb, hg]

/-- Witness for `market_merge_frame` on a ready cache with concrete
provider responses. -/
theorem market_merge_frame_witness :
    refreshMarkets readyCache (.ok (some ⟨some 50000, some 900⟩))
      (.ok (some 2000)) (.error ()) "t5" =
      { readyCache with data := some mergedDoc, marketsUpdatedAt := some "t5" } :=
  market_merge_frame readyCache sampleDoc (.ok (some ⟨some 50000, some 900⟩))
    (.ok (some 2000)) (.error ()) "t5" btcQuote goldQuote rfl rfl rfl

/-- Claim C4: a market refresh while `CACHE.data` is null returns before
any fetch; the cache is unchanged whatever the three provider outcomes
would have been. -/
theorem market_refresh_noop_when_not_ready (c : Cache)
    (b : Except Unit (Option BtcCoin)) (g : Except Unit (Option Int))
    (s : Except Unit String) (now : String) (h : c.data = none) :
    refreshMarkets c b g s now = c := by
  simp [refreshMarkets, h]

/-- Witness for `market_refresh_noop_when_not_ready` on the initial cache
with all three fetches succeeding. -/
theorem market_refresh_noop_when_not_ready_witness :
    refreshMarkets initialCache (.ok (some ⟨some 50000, some 900⟩))
      (.ok (some 2000)) (.ok "a,b\nc,d,e,f,g,h,5000,i") "t1" = initialCache :=
  market_refresh_noop_when_not_ready initialCache
    (.ok (some ⟨some 50000, some 900⟩)) (.ok (some 2000))
    (.ok "a,b\nc,d,e,f,g,h,5000,i") "t1" rfl

/-- Claim C10: an Authorization header that does not start with the exact
prefix `Bearer ` yields 401 `{error: "Missing API key"}` for every hash
function, every key store and every downstream handler — so the header
value is never hashed or looked up and the handler never runs. -/
theorem non_bearer_header_rejected_401 (hk : String → String) (db : DB)
    (hdr : String) (handler : KeyRecord → DB → Response × DB)
    (h : startsWithBearer hdr = false) :
    requireKey hk db.keys (some hdr) = .missing401 ∧
    runAuthed hk db (some hdr) handler = (⟨401, .jsonErr "Missing API key"⟩, db) := by
  have ht : tokenOf (some hdr) = none := by simp [tokenOf, h]
  exact ⟨by simp [requireKey, ht], by simp [runAuthed, requireKey, ht]⟩

/-- Witness for `non_bearer_header_rejected_401` with a lowercase
`bearer` scheme, a populated store and an observing handler. -/
theorem non_bearer_header_rejected_401_witness :
    (startsWithBearer "bearer tok1" = false) ∧
    requireKey sampleHash sampleDB.keys (some "bearer tok1") = .missing401 ∧
    runAuthed sampleHash sampleDB (some "bearer tok1") okHandler =
      (⟨401, .jsonErr "Missing API key"⟩, sampleDB) :=
  ⟨by decide,
   (non_bearer_header_rejected_401 sampleHash sampleDB "bearer tok1" okHandler
     (by decide)).1,
   (non_bearer_header_rejected_401 sampleHash sampleDB "bearer tok1" okHandler
     (by decide)).2⟩

/-- Claim C5: the auth gate answers 401 when no bearer token is present,
403 when the token's hash is unknown or the record is not `active`, and
otherwise runs the handler with the resolved record and the untouched
store; in the reject cases the store is returned unchanged and the
handler never influences the outcome. -/
theorem auth_gate_cases (hk : String → String) (db : DB) (hdr : Option String)
    (handler : KeyRecord → DB → Response × DB) :
    (tokenOf hdr = none →
      runAuthed hk db hdr handler = (⟨401, .jsonErr "Missing API key"⟩, db)) ∧
    (∀ t, tokenOf hdr = some t → getKeyByHash db.keys (hk t) = none →
      runAuthed hk db hdr handler = (⟨403, .jsonErr "Invalid API key"⟩, db)) ∧
    (∀ t r, tokenOf hdr = some t → getKeyByHash db.keys (hk t) = some r →
      r.status ≠ "active" →
      runAuthed hk db hdr handler = (⟨403, .jsonErr "Invalid API key"⟩, db)) ∧
    (∀ t r, tokenOf hdr = some t → getKeyByHash db.keys (hk t) = some r →
      r.status = "active" → runAuthed hk db hdr handler = handler r db) := by
  refine ⟨?_, ?_, ?_, ?_⟩ <;> intros <;> simp_all [runAuthed, requireKey]

/-- Witness for `auth_gate_cases`: all four cases on a concrete store
holding one active and one inactive key. -/
theorem auth_gate_cases_witness :
    runAuthed sampleHash sampleDB none okHandler =
      (⟨401, .jsonErr "Missing API key"⟩, sampleDB) ∧
    runAuthed sampleHash sampleDB (some "Bearer nope") okHandler =
      (⟨403, .jsonErr "Invalid API key"⟩, sampleDB) ∧
    runAuthed sampleHash sampleDB (some "Bearer tok2") okHandler =
      (⟨403, .jsonErr "Invalid API key"⟩, sampleDB) ∧
    runAuthed sampleHash sampleDB (some "Bearer tok1") okHandler =
      okHandler activeRec sampleDB :=
  ⟨(auth_gate_cases sampleHash sampleDB none okHandler).1 rfl,
   (auth_gate_cases sampleHash sampleDB (some "Bearer nope") okHandler).2.1
     "nope" (by decide) (by decide),
   (auth_gate_cases sampleHash sampleDB (some "Bearer tok2") okHandler).2.2.1
     "tok2" inactiveRec (by decide) (by decide) (by decide),
   (auth_gate_cases sampleHash sampleDB (some "Bearer tok1") okHandler).2.2.2
     "tok1" activeRec (by decide) (by decide) rfl⟩

/-- Claim C2 counterexample: a tick in which the sp500 provider fetch
rejects (network error) while btc and gold succeed is not abandoned —
`markets` and `marketsUpdatedAt` both change, btc and gold are updated
and sp500 is written with a null price. -/
theorem sp500_failure_does_not_abandon_tick :
    refreshMarkets readyCache (.ok (some ⟨some 50000, some 900⟩))
      (.ok (some 2000)) (.error ()) "t9" ≠ readyCache ∧
    (refreshMarkets readyCache (.ok (some ⟨some 50000, some 900⟩))
      (.ok (some 2000)) (.error ()) "t9").marketsUpdatedAt = some "t9" ∧
    (refreshMarkets readyCache (.ok (some ⟨some 50000, some 900⟩))
      (.ok (some 2000)) (.error ()) "t9").data = some mergedDoc := by
  refine ⟨?_, rfl, rfl⟩
  decide

/-- Claim C2 as amended: a btc or gold fetch failure (rejected
`fetchJson`: network error or non-success status) abandons the whole
tick, leaving the cache untouched; an sp500 fetch failure is swallowed
inside `fetchSp500Market`, so the tick proceeds and merges btc, gold and
an sp500 quote with a null price. -/
theorem market_tick_failure_asymmetry :
    (∀ c g s now, refreshMarkets c (Except.error ()) g s now = c) ∧
    (∀ c b s now, refreshMarkets c b (Except.error ()) s now = c) ∧
    (∀ c doc b g now btc gold, c.data = some doc →
      fetchBtcMarket b = Except.ok btc → fetchGoldMarket g = Except.ok gold →
      refreshMarkets c b g (Except.error ()) now =
        { c with
          data := some { doc with markets := some ⟨btc, gold, spxFailQuote⟩ },
          marketsUpdatedAt := some now }) := by
  refine ⟨?_, ?_, ?_⟩
  · intro c g s now
    cases hc : c.data <;> simp [refreshMarkets, hc, fetchBtcMarket]
  · intro c b s now
    cases hc : c.data with
    | none => simp [refreshMarkets, hc]
    | some doc =>
      cases hb : fetchBtcMarket b <;>
        simp [refreshMarkets, hc, hb, fetchGoldMarket]
  · intro c doc b g now btc gold hc hb hg
    simp [refreshMarkets, hc, hb, hg, fetchSp500Market, fetchSpx, spxFailQuote,
      Except.map]

/-- Witness for `market_tick_failure_asymmetry`: concrete btc-failure,
gold-failure and sp500-failure ticks over a ready cache. -/
theorem market_tick_failure_asymmetry_witness :
    refreshMarkets readyCache (Except.error ()) (.ok (some 2000))
      (.ok "csv") "t9" = readyCache ∧
    refreshMarkets readyCache (.ok (some ⟨some 50000, some 900⟩))
      (Except.error ()) (.ok "csv") "t9" = readyCache ∧
    refreshMarkets readyCache (.ok (some ⟨some 50000, some 900⟩))
      (.ok (some 2000)) (Except.error ()) "t9" =
      { readyCache with data := some mergedDoc, marketsUpdatedAt := some "t9" } :=
  ⟨market_tick_failure_asymmetry.1 readyCache (.ok (some 2000)) (.ok "csv") "t9",
   market_tick_failure_asymmetry.2.1 readyCache (.ok (some ⟨some 50000, some 900⟩))
     (.ok "csv") "t9",
   market_tick_failure_asymmetry.2.2 readyCache sampleDoc
     (.ok (some ⟨some 50000, some 900⟩)) (.ok (some 2000)) "t9"
     btcQuote goldQuote rfl rfl rfl⟩

/-- The cache after a first base refresh at `t1` and a merge tick at
`t2`. -/
def traceAfterMerge : Cache :=
  refreshMarkets (refreshBaseData initialCache (some sampleDoc) "t1")
    (.ok (some ⟨some 50000, some 900⟩)) (.ok (some 2000)) (.error ()) "t2"

/-- `traceAfterMerge` after a further successful base refresh at `t3`
fetching the same upstream document (which carries no `markets`). -/
def traceAfterRebase : Cache :=
  refreshBaseData traceAfterMerge (some sampleDoc) "t3"

/-- Claim C9: a successful base refresh replaces the document wholesale
while `marketsUpdatedAt` keeps its old value, so previously merged
markets are discarded; concretely, after merging at `t2` and re-basing at
`t3`, `GET /public/index` serves `marketsUpdatedAt = t2` together with a
document holding no markets at all. -/
theorem base_refresh_discards_merged_markets :
    (∀ c payload now, refreshBaseData c (some payload) now =
      ⟨some payload, some now, c.marketsUpdatedAt⟩) ∧
    traceAfterMerge.data = some mergedDoc ∧
    traceAfterRebase = ⟨some sampleDoc, some "t3", some "t2"⟩ ∧
    sampleDoc.markets = none ∧
    handlePublicIndex traceAfterRebase =
      ⟨200, .publicIndex sampleDoc "neutral" (some "t3") (some "t2")⟩ := by
  refine ⟨fun c payload now => rfl, rfl, rfl, rfl, rfl⟩

/-- Claim C6 counterexample: a webhook request whose signature verifies
and whose event is a checkout completion with a customer email, with a
mailer configured whose call rejects, does not answer 200
`{received: true}` — the handler throws after the insert and no response
is sent. -/
theorem verified_webhook_without_ack :
    (handleWebhook sampleHash ⟨[], []⟩
      (Except.ok ⟨"checkout.session.completed", some "a@b.com", some "cus_9",
        some "sub_9", none⟩) "sec" 1 (some "https://mail.example") false).response
      ≠ some ⟨200, .receivedTrue⟩ ∧
    (handleWebhook sampleHash ⟨[], []⟩
      (Except.ok ⟨"checkout.session.completed", some "a@b.com", some "cus_9",
        some "sub_9", none⟩) "sec" 1 (some "https://mail.example") false).response
      = none ∧
    (handleWebhook sampleHash ⟨[], []⟩
      (Except.ok ⟨"checkout.session.completed", some "a@b.com", some "cus_9",
        some "sub_9", none⟩) "sec" 1 (some "https://mail.example") false).db.keys
      ≠ [] := by
  refine ⟨?_, rfl, ?_⟩ <;> decide

/-- Claim C6 as amended: a webhook whose signature verification fails is
answered 400 with no side effect at all (store identical, no mailer
call); when verification succeeds, every event type — recognized or not —
is acknowledged 200 `{received: true}`, provided the awaited mailer call
of a checkout event does not reject (its rejection escapes the handler
after the key insert). -/
theorem webhook_badsig_no_side_effect_and_ack :
    (∀ hk db msg secret nextId url mailOk,
      handleWebhook hk db (Except.error msg) secret nextId url mailOk =
        ⟨some ⟨400, .textMsg ("Webhook Error: " ++ msg)⟩, db, []⟩) ∧
    (∀ hk db event secret nextId url,
      (handleWebhook hk db (Except.ok event) secret nextId url true).response =
        some ⟨200, .receivedTrue⟩) := by
  refine ⟨fun hk db msg secret nextId url mailOk => rfl, ?_⟩
  intro hk db event secret nextId url
  simp only [handleWebhook]
  split_ifs <;> simp_all

/-- A concrete verified checkout-completion event. -/
def mailEvent : StripeEvent :=
  ⟨"checkout.session.completed", some "a@b.com", some "cus_1", some "sub_1", none⟩

/-- Claim C7: a verified checkout-completed event appends exactly one key
record — active, plan `pro`, linkage from the payload, identity the hash
of the fresh secret; the store depends on the secret only through its
hash (the plaintext is never stored), the plaintext leaves the system
only inside the mailer notification, and the response never carries
it. -/
theorem checkout_mints_one_key (hk : String → String) (db : DB)
    (event : StripeEvent) (secret : String) (nextId : Nat)
    (url : Option String) (mailOk : Bool)
    (htype : event.type = "checkout.session.completed") :
    (handleWebhook hk db (Except.ok event) secret nextId url mailOk).db.keys =
      db.keys ++ [⟨nextId, hk secret, "pro", "active",
        orNullStr event.customer_email, orNullStr event.customer,
        orNullStr event.subscription⟩] ∧
    (handleWebhook hk db (Except.ok event) secret nextId url mailOk).db.alerts =
      db.alerts ∧
    (∀ m ∈ (handleWebhook hk db (Except.ok event) secret nextId url mailOk).mails,
      m.html = keyMailHtml secret) ∧
    (∀ secret2, hk secret2 = hk secret →
      (handleWebhook hk db (Except.ok event) secret2 nextId url mailOk).db =
        (handleWebhook hk db (Except.ok event) secret nextId url mailOk).db) ∧
    ((handleWebhook hk db (Except.ok event) secret nextId url mailOk).response
        = none ∨
     (handleWebhook hk db (Except.ok event) secret nextId url mailOk).response
        = some ⟨200, Body.receivedTrue⟩) := by
  simp only [handleWebhook, htype, insertKey]
  split_ifs <;> simp_all [insertKey]

/-- Witness for `checkout_mints_one_key` on an empty store with a
concrete event, secret and mailer. -/
theorem checkout_mints_one_key_witness :
    mailEvent.type = "checkout.session.completed" ∧
    (handleWebhook sampleHash ⟨[], []⟩ (Except.ok mailEvent) "sec" 7
      (some "https://mail.example") true).db.keys =
      [⟨7, "h:sec", "pro", "active", some "a@b.com", some "cus_1", some "sub_1"⟩] :=
  ⟨rfl, (checkout_mints_one_key sampleHash ⟨[], []⟩ mailEvent "sec" 7
      (some "https://mail.example") true rfl).1.trans (by decide)⟩

/-- Claim C8 counterexample: an authenticated subscribe request whose
body has the `email` field present but empty is answered 400 and adds no
alert record, although the claim promises 200 whenever one of the two
fields is present. -/
theorem present_empty_email_rejected :
    requireKey sampleHash sampleDB.keys (some "Bearer tok1") = .proceed activeRec ∧
    postAlertsSubscribe sampleHash sampleDB (some "Bearer tok1") (some "") none =
      (⟨400, .jsonErr "Provide email or telegramChatId"⟩, sampleDB) := by
  refine ⟨?_, ?_⟩ <;> decide

/-- Claim C8 as amended: an authenticated subscribe request is answered
400 with no record added when both `email` and `telegramChatId` are
JS-falsy (absent or empty), and otherwise adds one alert row linked to
the resolved key and answers 200 `{ok: true}`. -/
theorem alerts_subscribe_requires_truthy_contact (hk : String → String)
    (db : DB) (hdr : Option String) (record : KeyRecord)
    (email tg : Option String)
    (hauth : requireKey hk db.keys hdr = .proceed record) :
    (strTruthy email = false → strTruthy tg = false →
      postAlertsSubscribe hk db hdr email tg =
        (⟨400, .jsonErr "Provide email or telegramChatId"⟩, db)) ∧
    (strTruthy email = true ∨ strTruthy tg = true →
      postAlertsSubscribe hk db hdr email tg =
        (⟨200, .okTrue⟩,
         { db with alerts := db.alerts ++ [⟨record.id, email, orNullStr tg⟩] })) := by
  constructor
  · intro he ht
    simp [postAlertsSubscribe, runAuthed, hauth, handleAlertsSubscribe, he, ht]
  · intro h
    rcases h with h | h <;>
      simp [postAlertsSubscribe, runAuthed, hauth, handleAlertsSubscribe, h,
        addAlert]

/-- Witness for `alerts_subscribe_requires_truthy_contact`: a concrete
empty body and a concrete telegram-only body under a valid token. -/
theorem alerts_subscribe_requires_truthy_contact_witness :
    postAlertsSubscribe sampleHash sampleDB (some "Bearer tok1") none none =
      (⟨400, .jsonErr "Provide email or telegramChatId"⟩, sampleDB) ∧
    postAlertsSubscribe sampleHash sampleDB (some "Bearer tok1") none
      (some "123") =
      (⟨200, .okTrue⟩, { sampleDB with alerts := [⟨1, none, some "123"⟩] }) :=
  ⟨(alerts_subscribe_requires_truthy_contact sampleHash sampleDB
      (some "Bearer tok1") activeRec none none (by decide)).1 rfl rfl,
   ((alerts_subscribe_requires_truthy_contact sampleHash sampleDB
      (some "Bearer tok1") activeRec none (some "123") (by decide)).2
      (Or.inr rfl)).trans (by decide)⟩

end ICI
